import Mathlib

/-
Shallow embedding of the core of a telemetry agent, covering:
  * the remote-write queue appender (package linear: appender.Append, Queue.commit),
  * the queue writer loop (package simple: newWriter, writer.Start, incrementKey),
  * the git module source (ImportGit.Update / pollFile),
  * the module config node and the custom component node of the controller
    (onContentUpdate, Run guards, setExports, UpdateBlock, Exports).
Machine integers (uint64 keys, int64 millisecond timestamps) are modelled as
Nat / Int; external I/O results (git fetches, remote-write submissions, the
River parser and evaluator) are passed in as explicit parameters.
-/

namespace Agent

/-! ### String containment, modelling Go strings.Contains -/

/-- Does the first character list start with the second one? -/
def charsStartWith : List Char → List Char → Bool
  | _, [] => true
  | [], _ :: _ => false
  | c :: cs, d :: ds => c == d && charsStartWith cs ds

/-- Does the first character list contain the second one as a contiguous run? -/
def charsContain : List Char → List Char → Bool
  | [], sub => sub.isEmpty
  | c :: cs, sub => charsStartWith (c :: cs) sub || charsContain cs sub

/-- Model of Go strings.Contains s sub. -/
def strContains (s sub : String) : Bool :=
  charsContain s.toList sub.toList

/-! ### Remote-write queue: the appender (package linear)

Timestamps are int64 milliseconds since the epoch, as in the source
(time.Now().UnixMilli(), Prometheus sample timestamps). The TTL is a Go
time.Duration; it is modelled as a whole number of milliseconds, so that the
source expression int64(a.ttl.Seconds()) is the Nat division ttlMs / 1000. -/

/-- One metric sample: labels, timestamp (ms) and a value. The float64 value is
opaque payload for the queue, so it is modelled as an integer. -/
structure Sample where
  labels : List (String × String)
  t : Int
  v : Int
deriving DecidableEq

/-- Modelled from the spec: the linear batch buffer type, referenced by the
appender but whose own file is not among the sources. Per the spec, "An
Appender accumulates samples in memory, flushing either on explicit Commit or
when the estimated encoded size exceeds 16 MiB". AddMetric appends one sample
and grows the size estimate; Reset empties the buffer. The per-sample size
estimate is abstract (a parameter of AddMetric). -/
structure Linear where
  samples : List Sample
  estimatedSize : Nat
deriving DecidableEq

def Linear.AddMetric (l : Linear) (sz : Sample → Nat) (s : Sample) : Linear :=
  { samples := l.samples ++ [s], estimatedSize := l.estimatedSize + sz s }

def Linear.Reset : Linear :=
  { samples := [], estimatedSize := 0 }

/-- The appender of package linear: a TTL (milliseconds), the in-memory batch
buffer, and the batches flushed so far to the parent queue (Queue.commit). -/
structure Appender where
  ttlMs : Nat
  l : Linear
  committed : List (List Sample)
deriving DecidableEq

/-- Queue.commit: flush the appender buffer as one new queue entry, unless the
buffer holds no metric. -/
def Queue.commit (committed : List (List Sample)) (l : Linear) : List (List Sample) :=
  if l.samples = [] then committed else committed ++ [l.samples]

/-- appender.Append. The source computes
  endTime := time.Now().UnixMilli() - int64(a.ttl.Seconds())
and drops the sample (returning the given ref and a nil error) when t < endTime;
otherwise it adds the metric to the buffer and flushes to the parent when the
estimated size exceeds 16 MiB. Here now is the UnixMilli clock reading and sz
the per-sample size estimate. Returns the new appender state together with the
returned (ref, error) pair. -/
def Appender.Append (a : Appender) (sz : Sample → Nat) (now : Int) (ref : Nat)
    (s : Sample) : Appender × Nat × Option String :=
  let endTime : Int := now - (a.ttlMs / 1000 : Nat)
  if s.t < endTime then
    (a, ref, none)
  else
    let l := a.l.AddMetric sz s
    if 16 * 1024 * 1024 < l.estimatedSize then
      ({ a with l := Linear.Reset, committed := Queue.commit a.committed l }, ref, none)
    else
      ({ a with l := l }, ref, none)

/-! ### Remote-write queue: the writer (package simple) -/

/-- The part of dbstore that newWriter consults: the per-name bookmark records
and GetOldestKey. -/
structure DBStore where
  bookmarks : List (String × Nat)
  oldestKey : Nat

def DBStore.GetBookmark (st : DBStore) (name : String) : Option Nat :=
  st.bookmarks.lookup name

/-- newWriter, lines 40-49: take the bookmark for the writer name when one is
found, otherwise the oldest persisted key; a resulting key of 0 is replaced by
1. Returns the initial currentKey of the writer. -/
def newWriterKey (st : DBStore) (name : String) : Nat :=
  let k :=
    match st.GetBookmark name with
    | none => st.oldestKey
    | some v => v
  if k = 0 then 1 else k

/-- Outcome of submitting one signal batch to the remote client: the success
flag and the returned error, as produced by QueueManager.Append and friends. -/
structure SendOutcome where
  success : Bool
  err : Option String
deriving DecidableEq

/-- The classification of writer.Start, lines 83-90: recoverableError starts
true and is set to false exactly when a non-nil error message contains the
substring "the sample has been rejected". -/
def recoverableErrorOf (err : Option String) : Bool :=
  match err with
  | none => true
  | some e => !(strContains e "the sample has been rejected")

/-- Follows only the spec words, for comparison in claim C4: an error is
terminal when its message matches one of the known terminal descriptors from
the remote, out-of-order or sample rejected. -/
def specUnrecoverable (e : String) : Bool :=
  strContains e "out of order" || strContains e "sample rejected"

/-- Result of one iteration of the writer loop: the current key, the persisted
bookmark for this writer, the chosen sleep before the next iteration (ms), and
whether incrementKey reported a change. -/
structure StepResult where
  currentKey : Nat
  bookmark : Option Nat
  timeoutMs : Nat
  newKey : Bool
deriving DecidableEq

/-- One iteration of writer.Start (lines 62-122) in the case where a signal was
found at the current key and submitted with outcome r. next is
dbstore.GetNextKey; cur the currentKey; bk the bookmark currently persisted for
this writer. On success or unrecoverable error the bookmark is written as cur
and incrementKey runs (currentKey := next cur, newKey := whether it changed);
otherwise both are left alone. The sleep is 1 s except for the
success-with-new-key fast path, which sleeps 10 ms. -/
def writerStepFound (next : Nat → Nat) (cur : Nat) (bk : Option Nat)
    (r : SendOutcome) : StepResult :=
  let recoverableError := recoverableErrorOf r.err
  let advance := r.success || !recoverableError
  let bk1 := if advance then some cur else bk
  let cur1 := if advance then next cur else cur
  let newKey := advance && (next cur != cur)
  let timeoutMs := if r.success && newKey then 10 else 1000
  { currentKey := cur1, bookmark := bk1, timeoutMs := timeoutMs, newKey := newKey }

/-! ### Git module source (package importsource, type ImportGit) -/

/-- Modelled from the spec: vcs.GitAuthConfig (package util/git, not among the
sources). Per the spec the auth modes are none, basic auth, SSH key and token;
only structural equality of the configuration matters here. -/
structure GitAuthConfig where
  basicAuthUser : Option String
  basicAuthPass : Option String
  sshKey : Option String
  token : Option String
deriving DecidableEq

def GitAuthConfig.zero : GitAuthConfig :=
  { basicAuthUser := none, basicAuthPass := none, sshKey := none, token := none }

/-- Arguments of the git module source. PullFrequency is in milliseconds. -/
structure GitArguments where
  repository : String
  revision : String
  path : String
  pullFrequencyMs : Nat
  auth : GitAuthConfig
deriving DecidableEq

def GitArguments.zero : GitArguments :=
  { repository := "", revision := "", path := "", pullFrequencyMs := 0,
    auth := GitAuthConfig.zero }

/-- vcs.GitRepoOptions: the triple compared with reflect.DeepEqual in
ImportGit.Update. -/
structure GitRepoOptions where
  repository : String
  revision : String
  auth : GitAuthConfig
deriving DecidableEq

/-- A vcs.GitRepo handle, recording the directory it was created in and the
options it was created with (vcs.NewGitRepo storagePath opts). -/
structure GitRepo where
  path : String
  opts : GitRepoOptions
deriving DecidableEq

/-- State of an ImportGit module source. -/
structure ImportGit where
  dataPath : String
  repo : Option GitRepo
  repoOpts : GitRepoOptions
  args : GitArguments
  lastContent : String
deriving DecidableEq

/-- Model of filepath.Join for the two-component case. -/
def filepathJoin (a b : String) : String := a ++ "/" ++ b

/-- NewImportGit: the Go zero values of repo, repoOpts, args and lastContent. -/
def newImportGit (dataPath : String) : ImportGit :=
  { dataPath := dataPath, repo := none,
    repoOpts := { repository := "", revision := "", auth := GitAuthConfig.zero },
    args := GitArguments.zero, lastContent := "" }

/-- Kind of error produced by the external git layer, as classified by the
errors.As tests of ImportGit.Update: a vcs.UpdateFailedError (the repo exists
but could not be updated; tolerated, cached contents keep being served) or any
other, hard, error (returned to the caller at once). -/
inductive GitErr where
  | updateFailed
  | hard
deriving DecidableEq

/-- ImportGit.pollFile (lines 231-248): repo.Update then repo.ReadFile are
external git I/O, summarised by readResult (the content read, or the error).
When the read content differs from lastContent, onContentChange fires; the
fired contents and the returned error accompany the new state. -/
def ImportGit.pollFile (im : ImportGit) (readResult : Except GitErr String) :
    ImportGit × List String × Option GitErr :=
  match readResult with
  | .error e => (im, [], some e)
  | .ok content =>
    if im.lastContent ≠ content then
      ({ im with lastContent := content }, [content], none)
    else
      (im, [], none)

/-- Tail of ImportGit.Update after the repo branch (lines 208-226): poll the
file; a non-UpdateFailedError is returned at once, before the new arguments
are stored; otherwise (success, or a tolerated UpdateFailedError that is only
logged) the arguments are stored and nil returned. -/
def ImportGit.updateFinish (im : ImportGit) (newArgs : GitArguments)
    (readResult : Except GitErr String) : ImportGit × List String × Option GitErr :=
  let (im2, fired, perr) := im.pollFile readResult
  if perr == some GitErr.hard then
    (im2, fired, some GitErr.hard)
  else
    ({ im2 with args := newArgs }, fired, none)

/-- ImportGit.Update (lines 172-227): repoPath is always
filepath.Join(DataPath, "repo"). When there is no repo yet or the derived
GitRepoOptions differ structurally from the stored ones, vcs.NewGitRepo is
invoked there (its outcome is cloneResult: none on success, some e on
failure): a hard failure is returned at once with repo, repoOpts and args all
unchanged (line 201); on success or a tolerated UpdateFailedError the handle
and options are stored (lines 204-205). Then the file is polled and the new
arguments stored, as in updateFinish. Returns the final state, the fired
content changes and the returned error. -/
def ImportGit.Update (im : ImportGit) (newArgs : GitArguments)
    (cloneResult : Option GitErr) (readResult : Except GitErr String) :
    ImportGit × List String × Option GitErr :=
  let repoPath := filepathJoin im.dataPath "repo"
  let repoOpts : GitRepoOptions :=
    { repository := newArgs.repository, revision := newArgs.revision,
      auth := newArgs.auth }
  if im.repo.isNone || !(repoOpts == im.repoOpts) then
    if cloneResult == some GitErr.hard then
      (im, [], some GitErr.hard)
    else
      ImportGit.updateFinish
        { im with repo := some { path := repoPath, opts := repoOpts },
                  repoOpts := repoOpts }
        newArgs readResult
  else
    ImportGit.updateFinish im newArgs readResult

/-! ### Controller: blocks and component identity -/

/-- A River block: a dotted name, an optional label ("" when absent) and a
body, kept abstract as a list of attribute assignments. -/
structure BlockStmt where
  name : List String
  label : String
  body : List (String × String)
deriving DecidableEq

/-- Modelled from the spec: controller.ComponentID (its file is not among the
sources). Per the spec, block identity is the name with the optional label,
and equality over identity matches updates. -/
abbrev ComponentID := List String

def ComponentID.Equals (a b : ComponentID) : Bool := a == b

/-- Modelled from the spec: controller.BlockComponentID, the identity
(name[, label]) of a block. -/
def BlockComponentID (b : BlockStmt) : ComponentID :=
  b.name ++ (if b.label = "" then [] else [b.label])

/-! ### Controller: the module config node (ImportConfigNode) -/

/-- A declare record constructed from a declare block of module content. -/
structure Declare where
  label : String
  content : String
deriving DecidableEq

/-- A top-level statement of parsed module content: a declare block, one of the
three module-source blocks (full name and label), or anything else (which
onContentUpdate only logs). -/
inductive ModuleStmt where
  | decl (label : String) (content : String)
  | imp (fullName : String) (label : String)
  | other (name : String)
deriving DecidableEq

/-- State of a module config node. The source field is the module source handle
the constructor creates; children are kept as label-to-block-name pairs (the
recursive construction of child nodes is elided; claim-relevant is only the
replacement discipline of the map). -/
structure ImportConfigNode where
  label : String
  nodeID : String
  source : Option ImportGit
  declares : List (String × Declare)
  children : List (String × String)
  childrenRunning : Bool
  lastUpdateTime : Nat
deriving DecidableEq

/-- NewImportConfigNode (lines 342-374): the source field is assigned the
freshly created module source, unconditionally, before any Evaluate. -/
def newImportConfigNode (b : BlockStmt) (dataPath : String) : ImportConfigNode :=
  { label := b.label,
    nodeID := String.intercalate "." (BlockComponentID b),
    source := some (newImportGit (filepathJoin dataPath (String.intercalate "." (BlockComponentID b)))),
    declares := [], children := [], childrenRunning := false, lastUpdateTime := 0 }

/-- ImportConfigNode.Run guard (lines 617-623): Run returns ErrUnevaluated
exactly when the source field is nil; otherwise it proceeds to run the source
and the children. -/
def ImportConfigNode.runReturnsUnevaluated (cn : ImportConfigNode) : Bool :=
  cn.source.isNone

/-- This node has no exports (lines 678-681: return nil). -/
def ImportConfigNode.Exports (_cn : ImportConfigNode) : Option (List (String × Int)) :=
  none

/-- processDeclareBlock (lines 449-457): a label already present is logged and
skipped; otherwise the declare is recorded under its label. -/
def ImportConfigNode.processDeclareBlock (cn : ImportConfigNode) (label content : String) :
    ImportConfigNode :=
  if (cn.declares.lookup label).isSome then cn
  else { cn with declares := cn.declares ++ [(label, { label := label, content := content })] }

/-- processImportBlock (lines 460-470): a child label already present is logged
and skipped; otherwise a child node is registered under the label. -/
def ImportConfigNode.processImportBlock (cn : ImportConfigNode) (fullName label : String) :
    ImportConfigNode :=
  if (cn.children.lookup label).isSome then cn
  else { cn with children := cn.children ++ [(label, fullName)] }

/-- processNodeBody (lines 429-446): dispatch each top-level statement. -/
def ImportConfigNode.processNodeBody (cn : ImportConfigNode) (stmts : List ModuleStmt) :
    ImportConfigNode :=
  stmts.foldl
    (fun cn s =>
      match s with
      | .decl label content => cn.processDeclareBlock label content
      | .imp fullName label => cn.processImportBlock fullName label
      | .other _ => cn)
    cn

/-- onContentUpdate (lines 473-506). The children map and the declares map are
replaced with fresh empty maps up front; then the content is parsed (the
external parser outcome is the parsed argument), the statements processed, and
the children evaluated (outcome childEvalOk). A parse or child error returns at
that point; otherwise lastUpdateTime is stored and OnNodeWithDependantsUpdate
invoked. The returned flag says whether that callback was invoked. -/
def ImportConfigNode.onContentUpdate (cn : ImportConfigNode)
    (parsed : Except String (List ModuleStmt)) (childEvalOk : Bool) (now : Nat) :
    ImportConfigNode × Bool :=
  let cn1 := { cn with children := [], declares := [] }
  match parsed with
  | .error _ => (cn1, false)
  | .ok stmts =>
    let cn2 := cn1.processNodeBody stmts
    if !childEvalOk then (cn2, false)
    else ({ cn2 with lastUpdateTime := now }, true)

/-! ### Controller: the custom component node (CustomComponentNode) -/

/-- Exports value of a custom component, compared with reflect.DeepEqual in the
source; structural equality of this type models that comparison. none is a nil
exports value (the initial one). -/
abbrev ExportsValue := Option (List (String × Int))

/-- State of a custom component node: its identity, current block, the
evaluator derived from the block body, the managed module component (nil until
evaluate builds it; its inner state lives in the external module package), the
cached exports and the last-update time. -/
structure CustomComponentNode where
  id : ComponentID
  block : BlockStmt
  eval : List (String × String)
  managed : Option Unit
  exports : ExportsValue
  lastUpdateTime : Nat
deriving DecidableEq

/-- NewCustomComponentNode (lines 829-876): managed starts nil; block and
evaluator come from the given block. -/
def newCustomComponentNode (b : BlockStmt) : CustomComponentNode :=
  { id := BlockComponentID b, block := b, eval := b.body, managed := none,
    exports := none, lastUpdateTime := 0 }

/-- CustomComponentNode.evaluate (lines 946-974). The four external call
outcomes are parameters: decoding the River block (evalOk), building the
module component when managed is still nil (buildOk), retrieving the custom
component config (cfgOk) and LoadFlowSource (loadOk). Returns the new state
and the error, if any. Note that a successful build assigns managed even when
a later step fails. -/
def CustomComponentNode.evaluateStep (cn : CustomComponentNode)
    (evalOk buildOk cfgOk loadOk : Bool) : CustomComponentNode × Option String :=
  if !evalOk then (cn, some "decoding River")
  else
    match cn.managed with
    | none =>
      if !buildOk then (cn, some "building custom component")
      else
        let cn1 := { cn with managed := some () }
        if !cfgOk then (cn1, some "retrieving custom component config")
        else if !loadOk then (cn1, some "updating component")
        else (cn1, none)
    | some _ =>
      if !cfgOk then (cn, some "retrieving custom component config")
      else if !loadOk then (cn, some "updating component")
      else (cn, none)

/-- CustomComponentNode.Run guard (lines 976-984): Run returns ErrUnevaluated
exactly when managed is nil; otherwise it proceeds to run the module
controller. -/
def CustomComponentNode.runReturnsUnevaluated (cn : CustomComponentNode) : Bool :=
  cn.managed.isNone

/-- setExports (lines 1022-1044): when the new value is structurally equal to
the stored one nothing happens; otherwise the exports are stored, the
last-update time set to now, and OnNodeWithDependantsUpdate invoked. The
returned flag says whether that callback was invoked. -/
def CustomComponentNode.setExports (cn : CustomComponentNode) (now : Nat)
    (e : ExportsValue) : CustomComponentNode × Bool :=
  if cn.exports = e then (cn, false)
  else ({ cn with exports := e, lastUpdateTime := now }, true)

/-- Outcome of a call that may panic. -/
inductive PanicOr (α : Type) where
  | panicked (msg : String)
  | ok (a : α)
deriving DecidableEq

/-- UpdateBlock (lines 916-925): panic when the block identity differs from the
node identity; otherwise replace the stored block and its evaluator. -/
def CustomComponentNode.UpdateBlock (cn : CustomComponentNode) (b : BlockStmt) :
    PanicOr CustomComponentNode :=
  if !(ComponentID.Equals (BlockComponentID b) cn.id) then
    .panicked "UpdateBlock called with an River block with a different component ID"
  else
    .ok { cn with block := b, eval := b.body }

/-! ### Concrete states used by closed counterexamples and witnesses -/

def sampleStore : DBStore :=
  { bookmarks := [("w", 2)], oldestKey := 5 }

def sampleBlock : BlockStmt :=
  { name := ["testImport", "test"], label := "myModule", body := [("input", "10")] }

def sampleCustomNode : CustomComponentNode :=
  { id := BlockComponentID sampleBlock, block := sampleBlock, eval := sampleBlock.body,
    managed := some (), exports := some [("output", 1)], lastUpdateTime := 3 }

def sampleGitOpts : GitRepoOptions :=
  { repository := "https://example.com/a.git", revision := "v1", auth := GitAuthConfig.zero }

def sampleGitArgs2 : GitArguments :=
  { repository := "https://example.com/a.git", revision := "v2", path := "mod.river",
    pullFrequencyMs := 60000, auth := GitAuthConfig.zero }

def sampleImportGit : ImportGit :=
  { dataPath := "data", repo := some { path := "data/repo", opts := sampleGitOpts },
    repoOpts := sampleGitOpts, args := GitArguments.zero, lastContent := "" }

def sampleImportNode : ImportConfigNode :=
  { label := "m", nodeID := "import.git.m", source := some (newImportGit "data"),
    declares := [("a", { label := "a", content := "declare body" })],
    children := [], childrenRunning := true, lastUpdateTime := 3 }

/-! ### Claims -/

/-- C1: evaluation of appender.Append at the failing input of the TTL unit
mismatch. With ttl = 1 h (3600000 ms), now = 10000000 ms and a sample
timestamp of 9000000 ms, the sample is NOT older than now - ttl, so the claim
requires it to be buffered; yet Append leaves the buffer and the committed
batches unchanged and returns (ref, nil), because the source subtracts
int64(ttl.Seconds()) = 3600 from a millisecond clock. -/
theorem C1_ttl_unit_mismatch :
    (10000000 - 3600000 : Int) ≤ 9000000 ∧
    Appender.Append { ttlMs := 3600000, l := Linear.Reset, committed := [] }
        (fun _ => 100) 10000000 5 { labels := [], t := 9000000, v := 42 }
      = ({ ttlMs := 3600000, l := Linear.Reset, committed := [] }, 5, none) := by
  exact ⟨by decide, by decide⟩

/-- C2 counterexample: a store whose bookmark for the writer name is 2 while
the oldest persisted key is 5. The claim says the writer starts at
max(bookmark, oldest) = 5; newWriter starts at the bookmark, 2. -/
theorem C2_counterexample :
    newWriterKey sampleStore "w" = 2 ∧ max 2 5 = 5 ∧ (2 : Nat) ≠ 5 := by
  decide

/-- C2 amended: when a bookmark exists for the writer name the writer starts at
the bookmark key regardless of the oldest persisted key; with no bookmark it
starts at the oldest persisted key; a resulting start key of 0 is replaced by
1. -/
theorem C2_start_key (st : DBStore) (name : String) :
    (∀ b, st.GetBookmark name = some b → 0 < b → newWriterKey st name = b) ∧
    (st.GetBookmark name = none → 0 < st.oldestKey →
      newWriterKey st name = st.oldestKey) ∧
    (st.GetBookmark name = some 0 → newWriterKey st name = 1) ∧
    (st.GetBookmark name = none → st.oldestKey = 0 → newWriterKey st name = 1) := by
  refine ⟨?_, ?_, ?_, ?_⟩
  · intro b hb hpos
    simp [newWriterKey, hb, Nat.pos_iff_ne_zero.mp hpos]
  · intro hb hpos
    simp [newWriterKey, hb, Nat.pos_iff_ne_zero.mp hpos]
  · intro hb
    simp [newWriterKey, hb]
  · intro hb h0
    simp [newWriterKey, hb, h0]

/-- C2 witness: instantiates C2_start_key on the sample store, whose bookmark
for writer w is the positive key 2. -/
theorem C2_start_key_witness : newWriterKey sampleStore "w" = 2 :=
  (C2_start_key sampleStore "w").1 2 rfl (by decide)

/-- C3: one writer iteration on a found entry. If the submission succeeded or
the error is classified unrecoverable, the bookmark is persisted as the
current key and the writer advances to GetNextKey(current); on a recoverable
failure the bookmark and the current key are unchanged and the iteration
retries after the initial 1 s delay. -/
theorem C3_writer_step (next : Nat → Nat) (cur : Nat) (bk : Option Nat)
    (r : SendOutcome) :
    (r.success = true ∨ recoverableErrorOf r.err = false →
      (writerStepFound next cur bk r).bookmark = some cur ∧
      (writerStepFound next cur bk r).currentKey = next cur) ∧
    (r.success = false → recoverableErrorOf r.err = true →
      (writerStepFound next cur bk r).bookmark = bk ∧
      (writerStepFound next cur bk r).currentKey = cur ∧
      (writerStepFound next cur bk r).timeoutMs = 1000) := by
  constructor
  · rintro (h | h) <;> simp [writerStepFound, h]
  · intro h1 h2
    simp [writerStepFound, h1, h2]

/-- C3 witness: instantiates C3_writer_step on a successful send at key 5 and
on a recoverable failure at key 5. -/
theorem C3_writer_step_witness :
    ((writerStepFound (fun k => k + 1) 5 none { success := true, err := none }).bookmark = some 5 ∧
     (writerStepFound (fun k => k + 1) 5 none { success := true, err := none }).currentKey = 6) ∧
    ((writerStepFound (fun k => k + 1) 5 none { success := false, err := some "boom" }).bookmark = none ∧
     (writerStepFound (fun k => k + 1) 5 none { success := false, err := some "boom" }).currentKey = 5 ∧
     (writerStepFound (fun k => k + 1) 5 none { success := false, err := some "boom" }).timeoutMs = 1000) :=
  ⟨(C3_writer_step (fun k => k + 1) 5 none { success := true, err := none }).1 (Or.inl rfl),
   (C3_writer_step (fun k => k + 1) 5 none { success := false, err := some "boom" }).2 rfl (by decide)⟩

/-- C4 counterexample: the message "out of order sample" matches the
out-of-order terminal descriptor named by the claim, yet the writer classifies
it as recoverable, because the only substring tested is "the sample has been
rejected". -/
theorem C4_counterexample :
    specUnrecoverable "out of order sample" = true ∧
    recoverableErrorOf (some "out of order sample") = true := by
  decide

/-- C4 amended: an error is classified unrecoverable exactly when its message
contains the single substring "the sample has been rejected"; a failed send
whose message contains it is skipped (bookmark written, key advanced), and one
whose message does not contain it, whatever else it says, keeps the current
key and bookmark, so the batch is retried rather than skipped. -/
theorem C4_classifier (next : Nat → Nat) (cur : Nat) (bk : Option Nat) (e : String) :
    (strContains e "the sample has been rejected" = true →
      recoverableErrorOf (some e) = false ∧
      (writerStepFound next cur bk { success := false, err := some e }).currentKey = next cur ∧
      (writerStepFound next cur bk { success := false, err := some e }).bookmark = some cur) ∧
    (strContains e "the sample has been rejected" = false →
      recoverableErrorOf (some e) = true ∧
      (writerStepFound next cur bk { success := false, err := some e }).currentKey = cur ∧
      (writerStepFound next cur bk { success := false, err := some e }).bookmark = bk) := by
  constructor <;> intro h <;> simp [recoverableErrorOf, writerStepFound, h]

/-- C4 witness: instantiates C4_classifier on a message containing the tested
substring. -/
theorem C4_classifier_witness :
    recoverableErrorOf (some "storage error: the sample has been rejected") = false ∧
    (writerStepFound (fun k => k + 1) 7 none
        { success := false, err := some "storage error: the sample has been rejected" }).currentKey = 8 ∧
    (writerStepFound (fun k => k + 1) 7 none
        { success := false, err := some "storage error: the sample has been rejected" }).bookmark = some 7 :=
  (C4_classifier (fun k => k + 1) 7 none "storage error: the sample has been rejected").1 (by decide)

/-- C5: the two Run guards do not implement fail-fast on never-evaluated
nodes. First, a freshly constructed module config node, on which Evaluate has
never been called, already has a non-nil source, so its Run proceeds past the
guard instead of returning ErrUnevaluated (the guard tests source == nil,
which the constructor always falsifies, contradicting the doc comment of Run).
Second, a custom component node whose only Evaluate failed in LoadFlowSource
keeps the managed component built earlier within that same failed Evaluate, so
its Run also proceeds. -/
theorem C5_run_guard_ineffective :
    (∀ b dataPath, (newImportConfigNode b dataPath).runReturnsUnevaluated = false) ∧
    (∀ b, ((newCustomComponentNode b).evaluateStep true true true false).2
            = some "updating component" ∧
          (((newCustomComponentNode b).evaluateStep true true true false).1).runReturnsUnevaluated
            = false) := by
  constructor
  · intro b dataPath
    rfl
  · intro b
    exact ⟨rfl, rfl⟩

/-- C6: setExports with a structurally equal value changes nothing and does
not invoke OnNodeWithDependantsUpdate; a structurally different value replaces
the stored exports, stores the update time and notifies the controller. -/
theorem C6_export_stability (cn : CustomComponentNode) (now : Nat) (e : ExportsValue) :
    (cn.exports = e → cn.setExports now e = (cn, false)) ∧
    (cn.exports ≠ e →
      (cn.setExports now e).1.exports = e ∧
      (cn.setExports now e).1.lastUpdateTime = now ∧
      (cn.setExports now e).2 = true) := by
  constructor <;> intro h <;> simp [CustomComponentNode.setExports, h]

/-- C6 witness: instantiates C6_export_stability on the sample node, reusing
its stored exports value. -/
theorem C6_export_stability_witness :
    sampleCustomNode.setExports 99 (some [("output", 1)]) = (sampleCustomNode, false) :=
  (C6_export_stability sampleCustomNode 99 (some [("output", 1)])).1 rfl

/-- Helper for C7: after the repo branch, the tail of Update (poll then store
arguments) never touches the repo handle, whichever way the poll goes. -/
theorem updateFinish_preserves_repo (im : ImportGit) (newArgs : GitArguments)
    (readResult : Except GitErr String) :
    (im.updateFinish newArgs readResult).1.repo = im.repo := by
  cases readResult with
  | error e => cases e <;> rfl
  | ok content =>
    simp only [ImportGit.updateFinish, ImportGit.pollFile]
    split <;> rfl

/-- C7 counterexample: updating with a changed revision (v1 to v2) and a
successful clone re-creates the repo handle, but in the same directory
data/repo that held the working copy for the previous repository options, not
a distinct one. -/
theorem C7_counterexample :
    (sampleImportGit.Update sampleGitArgs2 none (.ok "contents")).1.repoOpts
      ≠ sampleImportGit.repoOpts ∧
    (sampleImportGit.Update sampleGitArgs2 none (.ok "contents")).1.repo
      = some { path := "data/repo",
               opts := { repository := "https://example.com/a.git", revision := "v2",
                         auth := GitAuthConfig.zero } } ∧
    sampleImportGit.repo = some { path := "data/repo", opts := sampleGitOpts } := by
  refine ⟨by decide, by decide, rfl⟩

/-- C7 amended: whenever Update is applied with repository, revision or auth
differing from the stored repository options, either creating the new working
copy fails hard (a non-UpdateFailedError), in which case Update returns that
error with the old handle, options and arguments all unchanged, or the handle
is re-created with the new options (a re-clone), but always in the same fixed
directory DataPath/repo; the directory does not depend on the options. -/
theorem C7_reclone_same_directory (im : ImportGit) (newArgs : GitArguments)
    (cloneResult : Option GitErr) (readResult : Except GitErr String)
    (hdiff : ({ repository := newArgs.repository, revision := newArgs.revision,
                auth := newArgs.auth } : GitRepoOptions) ≠ im.repoOpts) :
    (cloneResult ≠ some GitErr.hard →
      (im.Update newArgs cloneResult readResult).1.repo
        = some { path := filepathJoin im.dataPath "repo",
                 opts := { repository := newArgs.repository, revision := newArgs.revision,
                           auth := newArgs.auth } }) ∧
    (cloneResult = some GitErr.hard →
      im.Update newArgs cloneResult readResult = (im, [], some GitErr.hard)) := by
  have hne : (({ repository := newArgs.repository, revision := newArgs.revision,
                 auth := newArgs.auth } : GitRepoOptions) == im.repoOpts) = false :=
    beq_eq_false_iff_ne.mpr hdiff
  constructor
  · intro hclone
    have hcl : (cloneResult == some GitErr.hard) = false :=
      beq_eq_false_iff_ne.mpr hclone
    simp only [ImportGit.Update, hne, hcl, Bool.not_false, Bool.or_true, if_true,
      Bool.false_eq_true, if_false]
    rw [updateFinish_preserves_repo]
  · intro hclone
    subst hclone
    simp [ImportGit.Update, hne]

/-- C7 witness: instantiates C7_reclone_same_directory on the sample source, a
revision change and a successful clone. -/
theorem C7_reclone_same_directory_witness :
    (sampleImportGit.Update sampleGitArgs2 none (.ok "contents")).1.repo
      = some { path := filepathJoin "data" "repo",
               opts := { repository := "https://example.com/a.git", revision := "v2",
                         auth := GitAuthConfig.zero } } :=
  (C7_reclone_same_directory sampleImportGit sampleGitArgs2 none (.ok "contents")
    (by decide)).1 (by decide)

/-- C8 counterexample: a module config node holding one previously imported
declare receives content that fails to parse; afterwards its declares map is
empty, because onContentUpdate replaces the map before parsing. The prior
declares do not remain active. -/
theorem C8_counterexample :
    (sampleImportNode.onContentUpdate (.error "parse error") true 9).1.declares = [] ∧
    sampleImportNode.declares ≠ [] := by
  exact ⟨rfl, by decide⟩

/-- C8 amended: onContentUpdate replaces the previous declares and children
maps with fresh empty maps up front; content that fails to parse therefore
leaves the node with no declares rather than the prior ones (and does not
notify the controller), and a duplicate declare label is skipped, keeping the
first occurrence, without failing the update. -/
theorem C8_content_update (cn : ImportConfigNode) (e : String) (ok : Bool)
    (now : Nat) (l c1 c2 : String) :
    ((cn.onContentUpdate (.error e) ok now).1.declares = [] ∧
     (cn.onContentUpdate (.error e) ok now).1.children = [] ∧
     (cn.onContentUpdate (.error e) ok now).2 = false) ∧
    ((cn.onContentUpdate (.ok [.decl l c1, .decl l c2]) true now).1.declares
        = [(l, { label := l, content := c1 })] ∧
     (cn.onContentUpdate (.ok [.decl l c1, .decl l c2]) true now).2 = true) := by
  constructor
  · exact ⟨rfl, rfl, rfl⟩
  · constructor <;>
      simp [ImportConfigNode.onContentUpdate, ImportConfigNode.processNodeBody,
        ImportConfigNode.processDeclareBlock, List.lookup]

/-- C9: a module config node has no exports: Exports returns nil in every
state. -/
theorem C9_no_exports (cn : ImportConfigNode) : cn.Exports = none := rfl

/-- C10: UpdateBlock panics exactly when the identity of the given block
differs from the node identity; when they agree, the call only replaces the
stored block and its evaluator, leaving every other field unchanged. -/
theorem C10_update_block (cn : CustomComponentNode) (b : BlockStmt) :
    ((∃ m, cn.UpdateBlock b = .panicked m) ↔ BlockComponentID b ≠ cn.id) ∧
    (BlockComponentID b = cn.id →
      cn.UpdateBlock b = .ok { cn with block := b, eval := b.body }) := by
  by_cases h : BlockComponentID b = cn.id
  · constructor
    · simp [CustomComponentNode.UpdateBlock, ComponentID.Equals, h]
    · intro _
      simp [CustomComponentNode.UpdateBlock, ComponentID.Equals, h]
  · constructor
    · simp [CustomComponentNode.UpdateBlock, ComponentID.Equals, h]
    · intro heq
      exact absurd heq h

/-- C10 witness: instantiates C10_update_block on the sample node and its own
block, whose identities agree. -/
theorem C10_update_block_witness :
    sampleCustomNode.UpdateBlock sampleBlock
      = .ok { sampleCustomNode with block := sampleBlock, eval := sampleBlock.body } :=
  (C10_update_block sampleCustomNode sampleBlock).2 rfl

end Agent
